import Mathlib

/-!
# Verification of the Stellar-Explain explanation engine

A shallow embedding of the explanation core of the Stellar-Explain
repository (`packages/core/src`), together with theorems settling the
specification claims about it.

Conventions used throughout:

* Rust `u64`/`u32`/`usize` values are modelled as `Nat`; arithmetic that can
  overflow in Rust is modelled with an explicit `% 2^64` (release-profile
  wrapping semantics).
* Rust `String`/`&str` is modelled as Lean `String`.  Rust string indexing
  is *byte*-indexed and panics when an index does not fall on a UTF-8
  character boundary; the byte-indexed helpers are therefore modelled over
  `List Char` with explicit byte accounting, returning `Option` (`none`
  models a panic).
* `Option`-returning Rust functions map to `Option`; `Result` maps to
  `Except`.  A Rust function that can panic is wrapped in one more `Option`
  layer whose `none` is the panic.
-/

namespace StellarExplain

/-! ## Byte-level string primitives

Rust `str::len` is the UTF-8 byte length, and `&s[i..j]` slices at byte
indices, panicking when an index is not a character boundary (or out of
range).  These helpers model that behaviour exactly: `takeBytes n l` is
`&s[..n]` and `dropBytes n l` is `&s[n..]`, with `none` as the panic. -/

/-- UTF-8 byte length of a Rust string, `str::len`. -/
def byteLen (l : List Char) : Nat := (l.map Char.utf8Size).sum

/-- Embeds `&s[..n]`: the first `n` bytes as characters, `none` when `n` is not a
character boundary or exceeds the length. -/
def takeBytes : Nat → List Char → Option (List Char)
  | 0, _ => some []
  | _ + 1, [] => none
  | n + 1, c :: cs =>
    if c.utf8Size ≤ n + 1 then (takeBytes (n + 1 - c.utf8Size) cs).map (c :: ·) else none

/-- Embeds `&s[n..]`: everything after the first `n` bytes, `none` when `n` is not a
character boundary or exceeds the length. -/
def dropBytes : Nat → List Char → Option (List Char)
  | 0, l => some l
  | _ + 1, [] => none
  | n + 1, c :: cs =>
    if c.utf8Size ≤ n + 1 then dropBytes (n + 1 - c.utf8Size) cs else none

/-! ## `models/fee.rs` -/

/-- Snapshot of network fee statistics (`models/fee.rs`, `FeeStats`).
All fields are `u64` stroop amounts. -/
structure FeeStats where
  base_fee : Nat
  min_fee : Nat
  max_fee : Nat
  mode_fee : Nat
  p90_fee : Nat
deriving DecidableEq

/-- Embeds `FeeStats::is_high_fee`: `fee > self.base_fee * 5`.  The multiplication
is `u64` arithmetic, so it wraps modulo `2^64` (release profile). -/
def FeeStats.is_high_fee (s : FeeStats) (fee : Nat) : Bool :=
  (s.base_fee * 5) % 2 ^ 64 < fee

/-- Left-pad a decimal string with zeros to 7 digits. -/
def pad7 (t : String) : String :=
  String.mk (List.replicate (7 - t.length) '0') ++ t

/-- Embeds `FeeStats::stroops_to_xlm`.  The source computes
`stroops as f64 / 10_000_000.0` and renders it with `format!("{:.7}")`;
IEEE-754 semantics are outside this embedding, so this definition is the
exact fixed-point rendering with 7 fractional digits.  It agrees with the
source wherever the `f64` computation is exact (in particular on the
documented examples), but the numerical claim about the conversion is not
settled against this idealisation. -/
def FeeStats.stroops_to_xlm (stroops : Nat) : String :=
  toString (stroops / 10000000) ++ "." ++ pad7 (toString (stroops % 10000000))

/-! ## `explain/transaction.rs`: fee explanation -/

/-- Embeds `explain_fee` (`explain/transaction.rs`). -/
def explain_fee (fee_charged : Nat) (fee_stats : Option FeeStats) : String :=
  let xlm := FeeStats.stroops_to_xlm fee_charged
  match fee_stats with
  | none => "A fee of " ++ xlm ++ " XLM was charged."
  | some stats =>
    if stats.is_high_fee fee_charged then
      let multiplier := fee_charged / max stats.base_fee 1
      "A fee of " ++ xlm ++ " XLM was charged. This is above average — " ++
        toString multiplier ++ "x the base fee."
    else
      "A fee of " ++ xlm ++ " XLM was charged. This is a standard network fee."

/-! ## Claim C2: fee classification -/

/-- C2 counterexample: the claim quantifies over *all* unsigned 64-bit
values, but `base_fee * 5` is `u64` arithmetic and wraps.  At
`base_fee = 2^62` and `fee = 2^63` the code classifies the fee as high even
though `fee > 5 * base_fee` is false. -/
theorem c2_counterexample :
    FeeStats.is_high_fee ⟨2 ^ 62, 0, 0, 0, 0⟩ (2 ^ 63) = true ∧
      ¬ (5 * 2 ^ 62 < 2 ^ 63) := by
  constructor
  · decide
  · decide

/-- C2 (amended): provided `base_fee * 5` does not overflow `u64`,
`is_high_fee fee` holds iff `fee > 5 * base_fee` (so `fee = 5 * base_fee`
is not high), and whenever the fee is classified high the fee explanation
displays the multiplier `fee / max base_fee 1` (integer floor division). -/
theorem c2_is_high_fee_iff (s : FeeStats) (fee : Nat)
    (hof : s.base_fee * 5 < 2 ^ 64) :
    (s.is_high_fee fee = true ↔ 5 * s.base_fee < fee) ∧
      (s.is_high_fee fee = true →
        explain_fee fee (some s) =
          "A fee of " ++ FeeStats.stroops_to_xlm fee ++
            " XLM was charged. This is above average — " ++
            toString (fee / max s.base_fee 1) ++ "x the base fee.") := by
  constructor
  · unfold FeeStats.is_high_fee
    rw [Nat.mod_eq_of_lt hof, Nat.mul_comm]
    simp
  · intro h
    simp only [explain_fee, h, if_true]

/-- C2 witness: at `base_fee = 100`, a fee of 1000 is high (10×), a fee of
exactly 500 (= 5×) is not, and the displayed multiplier is 10. -/
theorem c2_witness :
    (FeeStats.is_high_fee ⟨100, 100, 5000, 100, 250⟩ 1000 = true ↔
        5 * 100 < 1000) ∧
      FeeStats.is_high_fee ⟨100, 100, 5000, 100, 250⟩ 500 = false ∧
      explain_fee 1000 (some ⟨100, 100, 5000, 100, 250⟩) =
        "A fee of 0.0001000 XLM was charged. This is above average — 10x the base fee." := by
  refine ⟨(c2_is_high_fee_iff ⟨100, 100, 5000, 100, 250⟩ 1000 (by decide)).1, by decide, ?_⟩
  have h := (c2_is_high_fee_iff ⟨100, 100, 5000, 100, 250⟩ 1000 (by decide)).2 (by decide)
  rw [h]
  decide

/-! ## `models/memo.rs` and `models/operation.rs`: the domain model -/

/-- Transaction memo (`models/memo.rs`, `Memo`). -/
inductive Memo where
  | None : Memo
  | Text : String → Memo
  | Id : Nat → Memo
  | Hash : String → Memo
  | Return : String → Memo
deriving DecidableEq

/-- Embeds `models/operation.rs`, `PaymentOperation`. -/
structure PaymentOperation where
  id : String
  source_account : Option String
  destination : String
  asset_type : String
  asset_code : Option String
  asset_issuer : Option String
  amount : String
deriving DecidableEq

/-- Embeds `models/operation.rs`, `SetOptionsOperation`. -/
structure SetOptionsOperation where
  id : String
  source_account : Option String
  inflation_dest : Option String
  clear_flags : Option Nat
  set_flags : Option Nat
  master_weight : Option Nat
  low_threshold : Option Nat
  med_threshold : Option Nat
  high_threshold : Option Nat
  home_domain : Option String
  signer_key : Option String
  signer_weight : Option Nat
deriving DecidableEq

/-- Embeds `models/operation.rs`, `CreateAccountOperation`. -/
structure CreateAccountOperation where
  id : String
  funder : String
  new_account : String
  starting_balance : String
deriving DecidableEq

/-- Embeds `models/operation.rs`, `ChangeTrustOperation`. -/
structure ChangeTrustOperation where
  id : String
  trustor : String
  asset_code : String
  asset_issuer : String
  limit : String
deriving DecidableEq

/-- Embeds `models/operation.rs`, `OfferType`. -/
inductive OfferType where
  | Sell : OfferType
  | Buy : OfferType
deriving DecidableEq

/-- Embeds `models/operation.rs`, `ManageOfferOperation` (`offer_id` is `u64`). -/
structure ManageOfferOperation where
  id : String
  seller : String
  selling_asset : String
  buying_asset : String
  amount : String
  price : String
  offer_id : Nat
  offer_type : OfferType
deriving DecidableEq

/-- Embeds `models/operation.rs`, `PathPaymentType`. -/
inductive PathPaymentType where
  | StrictSend : PathPaymentType
  | StrictReceive : PathPaymentType
deriving DecidableEq

/-- Embeds `models/operation.rs`, `PathPaymentOperation`. -/
structure PathPaymentOperation where
  id : String
  source_account : Option String
  destination : String
  send_asset : String
  send_amount : String
  dest_asset : String
  dest_amount : String
  path : List String
  payment_type : PathPaymentType
deriving DecidableEq

/-- Embeds `models/operation.rs`, `ClawbackOperation`. -/
structure ClawbackOperation where
  id : String
  source_account : Option String
  /-- The source field is named `from` in Rust; `from` is a Lean keyword. -/
  from_ : String
  asset_code : String
  asset_issuer : String
  amount : String
deriving DecidableEq

/-- Embeds `models/operation.rs`, `ClawbackClaimableBalanceOperation`. -/
structure ClawbackClaimableBalanceOperation where
  id : String
  source_account : Option String
  balance_id : String
deriving DecidableEq

/-- Embeds `models/operation.rs`, `OtherOperation` (unsupported operation kinds). -/
structure OtherOperation where
  id : String
  operation_type : String
deriving DecidableEq

/-- Embeds `models/operation.rs`, the `Operation` tagged union. -/
inductive Operation where
  | Payment : PaymentOperation → Operation
  | SetOptions : SetOptionsOperation → Operation
  | CreateAccount : CreateAccountOperation → Operation
  | ChangeTrust : ChangeTrustOperation → Operation
  | ManageOffer : ManageOfferOperation → Operation
  | PathPayment : PathPaymentOperation → Operation
  | Clawback : ClawbackOperation → Operation
  | ClawbackClaimableBalance : ClawbackClaimableBalanceOperation → Operation
  | Other : OtherOperation → Operation
deriving DecidableEq

/-- Embeds `Operation::is_payment` (`matches!(self, Operation::Payment(_))`). -/
def Operation.is_payment : Operation → Bool
  | Operation.Payment _ => true
  | _ => false

/-- Embeds `models/transaction.rs`, `Transaction`. -/
structure Transaction where
  hash : String
  successful : Bool
  fee_charged : Nat
  operations : List Operation
  memo : Option Memo
deriving DecidableEq

/-- Embeds `Transaction::payment_operations`: the payment payloads, in order. -/
def Transaction.payment_operations (tx : Transaction) : List PaymentOperation :=
  tx.operations.filterMap fun op =>
    match op with
    | Operation.Payment p => some p
    | _ => none

/-- Embeds `Transaction::payment_count`. -/
def Transaction.payment_count (tx : Transaction) : Nat :=
  (tx.operations.filter fun op => op.is_payment).length

/-! ## `explain/operation/set_options.rs` -/

/-- Embeds `SetOptionsExplanation`. -/
structure SetOptionsExplanation where
  summary : String
  account : String
  changes : List String
deriving DecidableEq

/-- Embeds `join_changes`: natural-English list joining
(1 item → `a`, 2 items → `a and b`, 3+ → `a, b, and c`). -/
def join_changes : List String → String
  | [] => ""
  | [a] => a
  | [a, b] => a ++ " and " ++ b
  | a :: b :: c :: rest =>
    String.intercalate ", " ((a :: b :: c :: rest).dropLast) ++ ", and " ++
      (a :: b :: c :: rest).getLast!

/-- Embeds `describe_flags`: account-flag bitmask to readable names
(`AUTH_REQUIRED=1, AUTH_REVOCABLE=2, AUTH_IMMUTABLE=4, CLAWBACK_ENABLED=8`). -/
def describe_flags (flags : Nat) : String :=
  let names : List String :=
    (if flags &&& 1 ≠ 0 then ["AUTH_REQUIRED"] else []) ++
    (if flags &&& 2 ≠ 0 then ["AUTH_REVOCABLE"] else []) ++
    (if flags &&& 4 ≠ 0 then ["AUTH_IMMUTABLE"] else []) ++
    (if flags &&& 8 ≠ 0 then ["CLAWBACK_ENABLED"] else [])
  if names.isEmpty then toString flags else String.intercalate ", " names

/-- Embeds `shorten_key` (`set_options.rs`): keys longer than 12 bytes become
`first4...last4` by *byte* slicing; `none` models the Rust panic when a
slice index falls inside a multi-byte character. -/
def shorten_key (key : List Char) : Option String :=
  if byteLen key > 12 then do
    let a ← takeBytes 4 key
    let b ← dropBytes (byteLen key - 4) key
    pure (String.mk a ++ "..." ++ String.mk b)
  else
    some (String.mk key)

/-- Embeds `build_summary` (`set_options.rs`). -/
def build_summary (account : String) (changes : List String) : String :=
  if changes.isEmpty then
    account ++ " submitted a set_options operation with no recognised changes."
  else
    account ++ " updated their account: " ++ join_changes changes

/-- Embeds `explain_set_options`.  The source pushes change descriptions onto a
vector in a fixed field order; that sequence of pushes is linearised here as
a list append in the same order.  The result is `Option` because the signer
branch calls `shorten_key`, which can panic. -/
def explain_set_options (op : SetOptionsOperation) : Option SetOptionsExplanation :=
  let account := op.source_account.getD "Unknown"
  let changes0 : List String :=
    (match op.inflation_dest with
     | some dest => ["set inflation destination to " ++ dest]
     | none => []) ++
    (match op.master_weight with
     | some 0 => ["disabled the master key"]
     | some weight => ["set master key weight to " ++ toString weight]
     | none => []) ++
    (match op.low_threshold with
     | some low => ["set low threshold to " ++ toString low]
     | none => []) ++
    (match op.med_threshold with
     | some med => ["set medium threshold to " ++ toString med]
     | none => []) ++
    (match op.high_threshold with
     | some high => ["set high threshold to " ++ toString high]
     | none => []) ++
    (match op.home_domain with
     | some domain =>
       if domain = "" then ["cleared the home domain"]
       else ["set home domain to " ++ domain]
     | none => []) ++
    (match op.set_flags with
     | some flags =>
       if flags > 0 then ["enabled account flag(s): " ++ describe_flags flags] else []
     | none => []) ++
    (match op.clear_flags with
     | some flags =>
       if flags > 0 then ["disabled account flag(s): " ++ describe_flags flags] else []
     | none => [])
  match op.signer_key with
  | none =>
    some { summary := build_summary account changes0
           account := account
           changes := changes0 }
  | some key =>
    (shorten_key key.data).map fun short_key =>
      let signer_change :=
        match op.signer_weight with
        | some 0 => "removed signer " ++ short_key
        | some weight => "added signer " ++ short_key ++ " with weight " ++ toString weight
        | none => "modified signer " ++ short_key
      let changes := changes0 ++ [signer_change]
      { summary := build_summary account changes
        account := account
        changes := changes }

/-! ## `explain/operation/clawback.rs` -/

/-- Embeds `ClawbackExplanation`. -/
structure ClawbackExplanation where
  summary : String
  issuer : String
  from_ : String
  asset_code : String
  asset_issuer : String
  amount : String
deriving DecidableEq

/-- Embeds `ClawbackClaimableBalanceExplanation`. -/
structure ClawbackClaimableBalanceExplanation where
  summary : String
  issuer : String
  balance_id : String
deriving DecidableEq

/-- Embeds `CLAWBACK_CONTEXT` (`clawback.rs`). -/
def CLAWBACK_CONTEXT : String :=
  "Clawback is a feature of regulated assets that allows issuers to recover funds under specific conditions."

/-- Embeds `explain_clawback`. -/
def explain_clawback (op : ClawbackOperation) : ClawbackExplanation :=
  let issuer := op.source_account.getD "Unknown issuer"
  let summary :=
    "The asset issuer reclaimed " ++ op.amount ++ " " ++ op.asset_code ++
      " from " ++ op.from_ ++ ". " ++ CLAWBACK_CONTEXT
  { summary := summary
    issuer := issuer
    from_ := op.from_
    asset_code := op.asset_code
    asset_issuer := op.asset_issuer
    amount := op.amount }

/-- Embeds `shorten_id` (`clawback.rs`): ids longer than 16 bytes become
`first8...last4` by byte slicing; `none` models the panic. -/
def shorten_id (id : List Char) : Option String :=
  if byteLen id > 16 then do
    let a ← takeBytes 8 id
    let b ← dropBytes (byteLen id - 4) id
    pure (String.mk a ++ "..." ++ String.mk b)
  else
    some (String.mk id)

/-- Embeds `explain_clawback_claimable_balance` (`Option` because of `shorten_id`). -/
def explain_clawback_claimable_balance (op : ClawbackClaimableBalanceOperation) :
    Option ClawbackClaimableBalanceExplanation :=
  let issuer := op.source_account.getD "Unknown issuer"
  (shorten_id op.balance_id.data).map fun short_id =>
    { summary := "The asset issuer clawed back claimable balance " ++ short_id ++
        ". " ++ CLAWBACK_CONTEXT
      issuer := issuer
      balance_id := op.balance_id }

/-! ## `explain/memo.rs` -/

/-- Embeds `format_hash` (`explain/memo.rs`): hashes longer than 20 bytes become
`first8...last8` by byte slicing; `none` models the panic. -/
def format_hash (hash : List Char) : Option String :=
  if byteLen hash > 20 then do
    let a ← takeBytes 8 hash
    let b ← dropBytes (byteLen hash - 8) hash
    pure (String.mk a ++ "..." ++ String.mk b)
  else
    some (String.mk hash)

/-- Embeds `explain_memo`.  The outer `Option` models the panic reachable through
`format_hash`; the inner `Option` is the Rust return value (`None` exactly
for `Memo::None`). -/
def explain_memo : Memo → Option (Option String)
  | Memo.None => some none
  | Memo.Text text =>
    some (some ("This transaction includes a text memo: \"" ++ text ++ "\""))
  | Memo.Id id =>
    some (some ("This transaction includes an ID memo: " ++ toString id ++
      ". This is typically used as a reference number, customer ID, or invoice number."))
  | Memo.Hash hash =>
    (format_hash hash.data).map fun fh =>
      some ("This transaction includes a hash memo: " ++ fh ++
        ". This is typically used to reference a document, contract, or other data.")
  | Memo.Return hash =>
    (format_hash hash.data).map fun fh =>
      some ("This transaction includes a return memo: " ++ fh ++
        ". This indicates a refund or return transaction.")

/-! ## Claim C6: natural-language joining -/

/-- The last element of `l ++ [x]` is `x` (for `getLast!`). -/
theorem getLast!_append_singleton (x : String) :
    ∀ l : List String, (l ++ [x]).getLast! = x := by
  intro l
  induction l with
  | nil => rfl
  | cons a t ih =>
    cases t with
    | nil => rfl
    | cons b t2 => exact ih

/-- C6: joining one change string returns it unchanged; two are joined with
bare `" and "`; for three or more (written as `init ++ [last]` with
`2 ≤ init.length`) all but the last are joined with `", "` and exactly one
Oxford-comma sequence `", and "` is placed before the final item. -/
theorem c6_join_changes :
    (∀ a : String, join_changes [a] = a) ∧
    (∀ a b : String, join_changes [a, b] = a ++ " and " ++ b) ∧
    (∀ (init : List String) (last : String), 2 ≤ init.length →
      join_changes (init ++ [last]) =
        String.intercalate ", " init ++ ", and " ++ last) := by
  refine ⟨fun a => rfl, fun a b => rfl, ?_⟩
  intro init last h
  match init, h with
  | a :: b :: rest, _ =>
    show join_changes (a :: b :: (rest ++ [last])) = _
    cases rest with
    | nil => rfl
    | cons c t =>
      show String.intercalate ", " ((a :: b :: c :: (t ++ [last])).dropLast) ++ ", and " ++
          (a :: b :: c :: (t ++ [last])).getLast! = _
      rw [show a :: b :: c :: (t ++ [last]) = (a :: b :: c :: t) ++ [last] by simp,
        List.dropLast_concat, getLast!_append_singleton]

/-- C6 witness: the three joining modes on concrete data. -/
theorem c6_witness :
    join_changes ["a"] = "a" ∧
      join_changes ["a", "b"] = "a and b" ∧
      join_changes ["a", "b", "c"] = "a, b, and c" := by
  refine ⟨c6_join_changes.1 "a", c6_join_changes.2.1 "a" "b", ?_⟩
  have h := c6_join_changes.2.2 ["a", "b"] "c" (by decide)
  rw [show (["a", "b"] : List String) ++ ["c"] = ["a", "b", "c"] by rfl] at h
  rw [h]
  decide

/-! ## Claim C8: totality of the shortening helpers and explainers -/

/-- Mapping a function over an `Option` preserves definedness. -/
theorem isSome_map_opt {α β : Type} (f : α → β) (o : Option α) :
    (o.map f).isSome = o.isSome := by
  cases o <;> rfl

/-- On single-byte (ASCII) strings the byte length is the character count. -/
theorem byteLen_of_ascii (l : List Char) (h : ∀ c ∈ l, c.utf8Size = 1) :
    byteLen l = l.length := by
  induction l with
  | nil => rfl
  | cons c cs ih =>
    have hc := h c (List.mem_cons_self c cs)
    have ih' := ih fun d hd => h d (List.mem_cons_of_mem c hd)
    simp only [byteLen, List.map_cons, List.sum_cons] at ih' ⊢
    rw [hc, ih', List.length_cons, Nat.add_comm]

/-- On ASCII strings any in-range byte-take succeeds. -/
theorem takeBytes_isSome_of_ascii :
    ∀ l : List Char, (∀ c ∈ l, c.utf8Size = 1) →
      ∀ n, n ≤ l.length → (takeBytes n l).isSome = true := by
  intro l
  induction l with
  | nil =>
    intro _ n hn
    have h0 : n = 0 := Nat.le_zero.mp hn
    subst h0
    rfl
  | cons c cs ih =>
    intro h n hn
    cases n with
    | zero => rfl
    | succ m =>
      have hc := h c (List.mem_cons_self c cs)
      simp only [takeBytes, hc, Nat.add_sub_cancel]
      rw [if_pos (by omega : (1 : Nat) ≤ m + 1), isSome_map_opt]
      exact ih (fun d hd => h d (List.mem_cons_of_mem c hd)) m (Nat.le_of_succ_le_succ hn)

/-- On ASCII strings any in-range byte-drop succeeds. -/
theorem dropBytes_isSome_of_ascii :
    ∀ l : List Char, (∀ c ∈ l, c.utf8Size = 1) →
      ∀ n, n ≤ l.length → (dropBytes n l).isSome = true := by
  intro l
  induction l with
  | nil =>
    intro _ n hn
    have h0 : n = 0 := Nat.le_zero.mp hn
    subst h0
    rfl
  | cons c cs ih =>
    intro h n hn
    cases n with
    | zero => rfl
    | succ m =>
      have hc := h c (List.mem_cons_self c cs)
      simp only [dropBytes, hc, Nat.add_sub_cancel]
      rw [if_pos (by omega : (1 : Nat) ≤ m + 1)]
      exact ih (fun d hd => h d (List.mem_cons_of_mem c hd)) m (Nat.le_of_succ_le_succ hn)

/-- Lemma: `shorten_key` is defined on every ASCII string. -/
theorem shorten_key_isSome_of_ascii (l : List Char) (h : ∀ c ∈ l, c.utf8Size = 1) :
    (shorten_key l).isSome = true := by
  unfold shorten_key
  by_cases hb : byteLen l > 12
  · rw [if_pos hb]
    have hlen := byteLen_of_ascii l h
    obtain ⟨a, ha⟩ :=
      Option.isSome_iff_exists.mp (takeBytes_isSome_of_ascii l h 4 (by omega))
    obtain ⟨b, hbb⟩ :=
      Option.isSome_iff_exists.mp (dropBytes_isSome_of_ascii l h (byteLen l - 4) (by omega))
    simp [ha, hbb]
  · rw [if_neg hb]
    rfl

/-- Lemma: `shorten_id` is defined on every ASCII string. -/
theorem shorten_id_isSome_of_ascii (l : List Char) (h : ∀ c ∈ l, c.utf8Size = 1) :
    (shorten_id l).isSome = true := by
  unfold shorten_id
  by_cases hb : byteLen l > 16
  · rw [if_pos hb]
    have hlen := byteLen_of_ascii l h
    obtain ⟨a, ha⟩ :=
      Option.isSome_iff_exists.mp (takeBytes_isSome_of_ascii l h 8 (by omega))
    obtain ⟨b, hbb⟩ :=
      Option.isSome_iff_exists.mp (dropBytes_isSome_of_ascii l h (byteLen l - 4) (by omega))
    simp [ha, hbb]
  · rw [if_neg hb]
    rfl

/-- Lemma: `format_hash` is defined on every ASCII string. -/
theorem format_hash_isSome_of_ascii (l : List Char) (h : ∀ c ∈ l, c.utf8Size = 1) :
    (format_hash l).isSome = true := by
  unfold format_hash
  by_cases hb : byteLen l > 20
  · rw [if_pos hb]
    have hlen := byteLen_of_ascii l h
    obtain ⟨a, ha⟩ :=
      Option.isSome_iff_exists.mp (takeBytes_isSome_of_ascii l h 8 (by omega))
    obtain ⟨b, hbb⟩ :=
      Option.isSome_iff_exists.mp (dropBytes_isSome_of_ascii l h (byteLen l - 8) (by omega))
    simp [ha, hbb]
  · rw [if_neg hb]
    rfl

/-- C8 counterexample: the shortening helpers are *not* defined on all
input strings.  Rust string slicing is byte-indexed and panics when an
index falls inside a multi-byte character: a signer key of five `'€'`
characters (15 bytes, so longer than 12) panics in `shorten_key` because
byte 4 is not a character boundary, and similarly for `shorten_id` and
`format_hash` (`none` models the panic). -/
theorem c8_counterexample :
    shorten_key "€€€€€".data = none ∧
      shorten_id "€€€€€€".data = none ∧
      format_hash "€€€€€€€".data = none := by
  refine ⟨by decide, by decide, by decide⟩

/-- C8 (amended): the shortening helpers are defined on all strings whose
characters are single-byte (ASCII) — of arbitrary length — and the
explainers that use them (`explain_set_options`,
`explain_clawback_claimable_balance`, `explain_memo`) return an explanation
record on every payload whose sliced string fields are ASCII; totality
fails only when a byte-slice index falls inside a multi-byte character. -/
theorem c8_ascii_totality :
    (∀ l : List Char, (∀ c ∈ l, c.utf8Size = 1) →
      (shorten_key l).isSome = true ∧ (shorten_id l).isSome = true ∧
        (format_hash l).isSome = true) ∧
    (∀ op : SetOptionsOperation,
      (match op.signer_key with
       | some key => ∀ c ∈ key.data, c.utf8Size = 1
       | none => True) →
      (explain_set_options op).isSome = true) ∧
    (∀ op : ClawbackClaimableBalanceOperation,
      (∀ c ∈ op.balance_id.data, c.utf8Size = 1) →
      (explain_clawback_claimable_balance op).isSome = true) ∧
    (∀ m : Memo,
      (match m with
       | Memo.Hash h => ∀ c ∈ h.data, c.utf8Size = 1
       | Memo.Return h => ∀ c ∈ h.data, c.utf8Size = 1
       | _ => True) →
      (explain_memo m).isSome = true) := by
  refine ⟨fun l h => ⟨shorten_key_isSome_of_ascii l h, shorten_id_isSome_of_ascii l h,
    format_hash_isSome_of_ascii l h⟩, ?_, ?_, ?_⟩
  · intro op hk
    cases hkey : op.signer_key with
    | none => simp [explain_set_options, hkey]
    | some key =>
      rw [hkey] at hk
      simp only [explain_set_options, hkey]
      rw [isSome_map_opt]
      exact shorten_key_isSome_of_ascii key.data hk
  · intro op h
    simp only [explain_clawback_claimable_balance]
    rw [isSome_map_opt]
    exact shorten_id_isSome_of_ascii op.balance_id.data h
  · intro m hm
    cases m with
    | None => rfl
    | Text t => rfl
    | Id i => rfl
    | Hash h =>
      simp only [explain_memo]
      rw [isSome_map_opt]
      exact format_hash_isSome_of_ascii h.data hm
    | Return h =>
      simp only [explain_memo]
      rw [isSome_map_opt]
      exact format_hash_isSome_of_ascii h.data hm

/-- C8 witness: the amended totality at concrete ASCII payloads. -/
theorem c8_witness :
    (shorten_key "GABCDEFGHIJKLMNOP".data).isSome = true ∧
      (explain_set_options
        { id := "op1", source_account := some "GAAAA", inflation_dest := none,
          clear_flags := none, set_flags := none, master_weight := none,
          low_threshold := none, med_threshold := none, high_threshold := none,
          home_domain := none,
          signer_key := some "GBBBBBBBBBBBBBBBBBBBBBBBBBBBBBBB",
          signer_weight := some 1 }).isSome = true ∧
      (explain_memo
        (Memo.Hash "abcdef1234567890abcdef1234567890")).isSome = true := by
  refine ⟨(c8_ascii_totality.1 "GABCDEFGHIJKLMNOP".data (by decide)).1,
    c8_ascii_totality.2.1 _ (by decide), c8_ascii_totality.2.2.2 _ (by decide)⟩

/-! ## `explain/operation/change_trust.rs` -/

/-- Embeds `ChangeTrustExplanation`. -/
structure ChangeTrustExplanation where
  summary : String
  trustor : String
  asset_code : String
  asset_issuer : String
  limit : String
  is_removal : Bool
deriving DecidableEq

/-- Embeds `explain_change_trust`: a limit of `"0"` removes the trust line. -/
def explain_change_trust (op : ChangeTrustOperation) : ChangeTrustExplanation :=
  let is_removal := op.limit == "0"
  let summary :=
    if is_removal then
      op.trustor ++ " removed trust for " ++ op.asset_code ++ "."
    else
      op.trustor ++ " opted in to hold up to " ++ op.limit ++ " " ++ op.asset_code ++
        " issued by " ++ op.asset_issuer ++ "."
  { summary := summary
    trustor := op.trustor
    asset_code := op.asset_code
    asset_issuer := op.asset_issuer
    limit := op.limit
    is_removal := is_removal }

/-! ## Claim C4: change-trust removal -/

/-- C4: `is_removal` holds iff the limit string is `"0"`; the removal
summary is `"<trustor> removed trust for <asset_code>."` and every other
case reads `"<trustor> opted in to hold up to <limit> <asset_code> issued
by <asset_issuer>."`. -/
theorem c4_change_trust (op : ChangeTrustOperation) :
    ((explain_change_trust op).is_removal = true ↔ op.limit = "0") ∧
      (explain_change_trust op).summary =
        (if op.limit = "0" then
          op.trustor ++ " removed trust for " ++ op.asset_code ++ "."
        else
          op.trustor ++ " opted in to hold up to " ++ op.limit ++ " " ++ op.asset_code ++
            " issued by " ++ op.asset_issuer ++ ".") := by
  by_cases h : op.limit = "0" <;> simp [explain_change_trust, h]

/-! ## `explain/operation/manage_offer.rs` -/

/-- Embeds `ManageOfferExplanation`. -/
structure ManageOfferExplanation where
  summary : String
  seller : String
  selling_asset : String
  buying_asset : String
  amount : String
  price : String
  offer_id : Nat
  action : String
deriving DecidableEq

/-- Embeds `explain_manage_offer`: the cancellation rule
(`amount == "0" && offer_id > 0`) takes precedence; otherwise the Sell/Buy
tag selects base/quote assets and `offer_id == 0` distinguishes a new offer
from an update. -/
def explain_manage_offer (op : ManageOfferOperation) : ManageOfferExplanation :=
  if op.amount = "0" ∧ op.offer_id > 0 then
    { summary := op.seller ++ " cancelled their existing offer #" ++ toString op.offer_id
      seller := op.seller
      selling_asset := op.selling_asset
      buying_asset := op.buying_asset
      amount := op.amount
      price := op.price
      offer_id := op.offer_id
      action := "cancel" }
  else
    let abq :=
      match op.offer_type with
      | OfferType.Sell => ("sell", op.selling_asset, op.buying_asset)
      | OfferType.Buy => ("buy", op.buying_asset, op.selling_asset)
    let summary := op.seller ++ " placed an order to " ++ abq.1 ++ " " ++ op.amount ++
      " " ++ abq.2.1 ++ " for " ++ abq.2.2 ++ " at a price of " ++ op.price ++ " " ++
      abq.2.2 ++ " per " ++ abq.2.1
    let op_action := if op.offer_id = 0 then "new" else "update"
    { summary := summary
      seller := op.seller
      selling_asset := op.selling_asset
      buying_asset := op.buying_asset
      amount := op.amount
      price := op.price
      offer_id := op.offer_id
      action := op_action }

/-! ## Claim C3: manage-offer actions -/

/-- String concatenation is associative. -/
theorem str_append_assoc (a b c : String) : a ++ b ++ c = a ++ (b ++ c) := by
  obtain ⟨da⟩ := a
  obtain ⟨db⟩ := b
  obtain ⟨dc⟩ := c
  show String.mk (da ++ db ++ dc) = String.mk (da ++ (db ++ dc))
  rw [List.append_assoc]

/-- Folding the action word into the sell-summary prefix. -/
theorem order_to_sell (a : String) :
    a ++ " placed an order to " ++ "sell" ++ " " = a ++ " placed an order to sell " := by
  rw [str_append_assoc, str_append_assoc]
  exact congrArg (fun s => a ++ s) (by decide)

/-- Folding the action word into the buy-summary prefix. -/
theorem order_to_buy (a : String) :
    a ++ " placed an order to " ++ "buy" ++ " " = a ++ " placed an order to buy " := by
  rw [str_append_assoc, str_append_assoc]
  exact congrArg (fun s => a ++ s) (by decide)

/-- C3: with `amount == "0"` and `offer_id > 0` the action is `"cancel"`
and the summary is `"<seller> cancelled their existing offer #<offer_id>"`,
independent of the Sell/Buy tag and the price; otherwise the action is
`"new"` exactly when `offer_id == 0` and `"update"` otherwise, and the
summary's base/quote assets are selling/buying under `Sell` and
buying/selling under `Buy`. -/
theorem c3_manage_offer (op : ManageOfferOperation) :
    ((explain_manage_offer op).action =
      if op.amount = "0" ∧ 0 < op.offer_id then "cancel"
      else if op.offer_id = 0 then "new" else "update") ∧
      ((explain_manage_offer op).summary =
        if op.amount = "0" ∧ 0 < op.offer_id then
          op.seller ++ " cancelled their existing offer #" ++ toString op.offer_id
        else
          match op.offer_type with
          | OfferType.Sell =>
            op.seller ++ " placed an order to sell " ++ op.amount ++ " " ++
              op.selling_asset ++ " for " ++ op.buying_asset ++ " at a price of " ++
              op.price ++ " " ++ op.buying_asset ++ " per " ++ op.selling_asset
          | OfferType.Buy =>
            op.seller ++ " placed an order to buy " ++ op.amount ++ " " ++
              op.buying_asset ++ " for " ++ op.selling_asset ++ " at a price of " ++
              op.price ++ " " ++ op.selling_asset ++ " per " ++ op.buying_asset) := by
  by_cases h : op.amount = "0" ∧ 0 < op.offer_id
  · simp [explain_manage_offer, h]
  · cases hot : op.offer_type
    · simp only [explain_manage_offer, if_neg h, hot]
      refine ⟨trivial, ?_⟩
      rw [order_to_sell]
    · simp only [explain_manage_offer, if_neg h, hot]
      refine ⟨trivial, ?_⟩
      rw [order_to_buy]

/-! ## `services/label.rs` and `explain/operation/payment.rs` -/

/-- Embeds Rust `str::trim`: strip leading and trailing whitespace characters. -/
def rust_trim (l : List Char) : List Char :=
  ((l.dropWhile Char.isWhitespace).reverse.dropWhile Char.isWhitespace).reverse

/-- Embeds `resolve_label` (`services/label.rs`): static address→label table.
`trim` is modelled character-wise and `to_ascii_uppercase` with
`Char.toUpper`, which upper-cases exactly the ASCII range. -/
def resolve_label (address : String) : Option String :=
  let normalized := String.mk ((rust_trim address.data).map Char.toUpper)
  match normalized with
  | "GAAAAAAAAAAAAAAAAAAAAAAAAAAAAAAAAAAAAAAAAAAAAAAAAAAAAWHF" => some "Stellar Foundation"
  | "GAAAAAAAAAAAAAAAAAAAAAAAAAAAAAAAAAAAAAAAAAAAAAAAAAAAH6H5" => some "SDF Distribution"
  | "GBINANCEAAAAAAAAAAAAAAAAAAAAAAAAAAAAAAAAAAAAAAAAAAAAAAA" => some "Binance"
  | "GCOINBASEAAAAAAAAAAAAAAAAAAAAAAAAAAAAAAAAAAAAAAAAAAAAAA" => some "Coinbase"
  | "GKRAKENAAAAAAAAAAAAAAAAAAAAAAAAAAAAAAAAAAAAAAAAAAAAAAA" => some "Kraken"
  | "GROBINHOODAAAAAAAAAAAAAAAAAAAAAAAAAAAAAAAAAAAAAAAAAAAAA" => some "Robinhood"
  | "GANCHORAGEAAAAAAAAAAAAAAAAAAAAAAAAAAAAAAAAAAAAAAAAAAAAA" => some "Anchorage Digital"
  | "GUSDCISSUERAAAAAAAAAAAAAAAAAAAAAAAAAAAAAAAAAAAAAAAAAAAA" => some "USDC Issuer (Circle)"
  | "GSTRONGHOLDAAAAAAAAAAAAAAAAAAAAAAAAAAAAAAAAAAAAAAAAAAAA" => some "Stronghold"
  | "GTEMPOEUROAAAAAAAAAAAAAAAAAAAAAAAAAAAAAAAAAAAAAAAAAAAAA" => some "Tempo"
  | "GLOBSTRVAULTAAAAAAAAAAAAAAAAAAAAAAAAAAAAAAAAAAAAAAAAAAA" => some "LOBSTR Vault"
  | _ => none

/-- Embeds `PaymentExplanation` (`payment.rs`); `from` and `to` are Lean
keywords, hence `from_`/`to_`. -/
structure PaymentExplanation where
  summary : String
  from_ : String
  to_ : String
  asset : String
  amount : String
  fee_note : Option String
deriving DecidableEq

namespace payment

/-- The module-private `format_asset` of `payment.rs` (distinct from the
mapper's `format_asset` in `models/operation.rs`). -/
def format_asset (op : PaymentOperation) : String :=
  if op.asset_type = "native" then
    "XLM (native)"
  else
    match op.asset_code with
    | some code =>
      match op.asset_issuer with
      | some issuer => code ++ " (" ++ issuer ++ ")"
      | none => code
    | none => "Unknown"

end payment

/-- Embeds `format_account_for_summary` (`payment.rs`). -/
def format_account_for_summary (address : String) : String :=
  if address = "Unknown" then
    "Unknown"
  else
    match resolve_label address with
    | some label => label ++ " (" ++ address ++ ")"
    | none => address

/-- Embeds `explain_payment` (`payment.rs`), the no-fee-context variant used by
the transaction orchestrator. -/
def explain_payment (op : PaymentOperation) : PaymentExplanation :=
  let asset := payment.format_asset op
  let from_ := op.source_account.getD "Unknown"
  let to_ := op.destination
  let from_display := format_account_for_summary from_
  let to_display := format_account_for_summary to_
  { summary := from_display ++ " sent " ++ op.amount ++ " " ++ asset ++ " to " ++ to_display
    from_ := from_
    to_ := to_
    asset := asset
    amount := op.amount
    fee_note := none }

/-! ## `explain/transaction.rs`: the orchestrator

The source file contains two overlapping revisions of
`explain_transaction` left by a merge; the embedding follows the revision
the module's tests exercise: the signature taking `fee_stats:
Option<&FeeStats>` and the result record carrying the `fee_explanation`
field assigned in the `Ok(...)` constructor. -/

/-- Embeds `TransactionExplanation`. -/
structure TransactionExplanation where
  transaction_hash : String
  successful : Bool
  summary : String
  payment_explanations : List PaymentExplanation
  skipped_operations : Nat
  memo_explanation : Option String
  fee_explanation : String
deriving DecidableEq

/-- Embeds `ExplainError`: the only error the explanation core defines. -/
inductive ExplainError where
  | EmptyTransaction : ExplainError
deriving DecidableEq

/-- Embeds `build_transaction_summary` (`explain/transaction.rs`). -/
def build_transaction_summary (successful : Bool) (payment_count skipped : Nat) : String :=
  let status := if successful then "successful" else "failed"
  if payment_count = 0 then
    let op_word := if skipped = 1 then "operation" else "operations"
    "This " ++ status ++ " transaction contains " ++ toString skipped ++ " " ++ op_word ++
      " that Stellar Explain does not yet support."
  else
    let payment_text :=
      if payment_count = 1 then "1 payment" else toString payment_count ++ " payments"
    let parts :=
      ["This " ++ status ++ " transaction contains " ++ payment_text] ++
        (if skipped > 0 then
          [if skipped = 1 then "1 other operation was skipped"
           else toString skipped ++ " other operations were skipped"]
         else [])
    String.intercalate ". " parts ++ "."

/-- Embeds the expression `transaction.memo.as_ref().and_then(|m| explain_memo(m))`:
the outer `Option` is panic-freedom (propagated from `explain_memo`),
the inner `Option` the Rust value. -/
def transaction_memo_explanation (tx : Transaction) : Option (Option String) :=
  match tx.memo with
  | none => some none
  | some m => explain_memo m

/-- Embeds `explain_transaction` (`explain/transaction.rs`).  The outer `Option`
models panic-freedom: `none` is the panic reachable through
`explain_memo`/`format_hash` on a hash memo whose byte-slice indices fall
inside multi-byte characters. -/
def explain_transaction (tx : Transaction) (fee_stats : Option FeeStats) :
    Option (Except ExplainError TransactionExplanation) :=
  let total_operations := tx.operations.length
  if total_operations = 0 then
    some (Except.error ExplainError.EmptyTransaction)
  else
    let payment_count := tx.payment_count
    let skipped_operations := total_operations - payment_count
    let payment_explanations := tx.payment_operations.map explain_payment
    let summary := build_transaction_summary tx.successful payment_count skipped_operations
    match transaction_memo_explanation tx with
    | none => none
    | some memo_explanation =>
      let fee_explanation := explain_fee tx.fee_charged fee_stats
      some (Except.ok
        { transaction_hash := tx.hash
          successful := tx.successful
          summary := summary
          payment_explanations := payment_explanations
          skipped_operations := skipped_operations
          memo_explanation := memo_explanation
          fee_explanation := fee_explanation })

/-- Whether explaining the transaction's memo is panic-free. -/
def memo_formats (tx : Transaction) : Bool :=
  match tx.memo with
  | none => true
  | some m => (explain_memo m).isSome

/-! ## Claim C1: the empty-transaction error -/

instance {ε α : Type} [DecidableEq ε] [DecidableEq α] : DecidableEq (Except ε α) :=
  fun a b =>
    match a, b with
    | Except.ok x, Except.ok y =>
      if h : x = y then isTrue (by rw [h]) else isFalse fun hc => h (Except.ok.inj hc)
    | Except.error x, Except.error y =>
      if h : x = y then isTrue (by rw [h]) else isFalse fun hc => h (Except.error.inj hc)
    | Except.ok _, Except.error _ => isFalse fun hc => Except.noConfusion hc
    | Except.error _, Except.ok _ => isFalse fun hc => Except.noConfusion hc

/-- C1 counterexample: a transaction with one operation for which no
`TransactionExplanation` is returned.  `format_hash` byte-slices the memo
hash, so a hash memo of seven `'€'` characters (21 bytes) panics inside
`explain_memo` (modelled by `none`) instead of yielding an explanation. -/
theorem c1_counterexample :
    ({ hash := "abc", successful := true, fee_charged := 100,
       operations := [Operation.Other { id := "1", operation_type := "create_account" }],
       memo := some (Memo.Hash "€€€€€€€") } : Transaction).operations ≠ [] ∧
      explain_transaction
        { hash := "abc", successful := true, fee_charged := 100,
          operations := [Operation.Other { id := "1", operation_type := "create_account" }],
          memo := some (Memo.Hash "€€€€€€€") } none = none := by
  exact ⟨by decide, by decide⟩

/-- C1 (amended): `explain_transaction` returns `Err(EmptyTransaction)` iff
the operations list is empty, regardless of `successful`, `fee_charged`,
memo or fee stats; `EmptyTransaction` is the only error value it can
return; and for every transaction with at least one operation *whose memo
formatting is panic-free* (in particular any transaction whose memo is
absent, non-hash, or an ASCII hash) it returns a complete
`TransactionExplanation`. -/
theorem c1_empty_transaction (tx : Transaction) (fee_stats : Option FeeStats) :
    (explain_transaction tx fee_stats = some (Except.error ExplainError.EmptyTransaction) ↔
      tx.operations = []) ∧
      (∀ err, explain_transaction tx fee_stats = some (Except.error err) →
        err = ExplainError.EmptyTransaction) ∧
      (tx.operations ≠ [] → memo_formats tx = true →
        ∃ e, explain_transaction tx fee_stats = some (Except.ok e)) := by
  by_cases h0 : tx.operations.length = 0
  · have he : tx.operations = [] := List.length_eq_zero.mp h0
    refine ⟨?_, ?_, ?_⟩
    · simp [explain_transaction, h0, he]
    · intro err _
      rfl
    · intro hne _
      exact absurd he hne
  · have hne : ¬ tx.operations = [] := fun he => h0 (by rw [he]; rfl)
    refine ⟨?_, ?_, ?_⟩
    · rw [iff_false_intro hne, iff_false]
      intro hcontra
      rw [explain_transaction, if_neg h0] at hcontra
      cases hm : transaction_memo_explanation tx with
      | none =>
        rw [hm] at hcontra
        exact Option.noConfusion hcontra
      | some mo =>
        rw [hm] at hcontra
        exact Except.noConfusion (Option.some.inj hcontra)
    · intro err _
      rfl
    · intro _ hmf
      rw [explain_transaction, if_neg h0]
      cases hm : transaction_memo_explanation tx with
      | none =>
        exfalso
        cases hmm : tx.memo with
        | none =>
          simp only [transaction_memo_explanation, hmm] at hm
          exact Option.noConfusion hm
        | some m =>
          simp only [transaction_memo_explanation, hmm] at hm
          simp only [memo_formats, hmm, hm] at hmf
          exact Bool.noConfusion hmf
      | some mo =>
        exact ⟨_, rfl⟩

/-- C1 witness: the empty transaction fails with `EmptyTransaction`; a
one-operation transaction without a memo yields an explanation. -/
theorem c1_witness :
    explain_transaction
        { hash := "empty", successful := true, fee_charged := 100,
          operations := [], memo := none } none =
      some (Except.error ExplainError.EmptyTransaction) ∧
      ∃ e, explain_transaction
          { hash := "abc", successful := true, fee_charged := 100,
            operations := [Operation.Other { id := "1", operation_type := "create_account" }],
            memo := none } none = some (Except.ok e) := by
  constructor
  · exact (c1_empty_transaction
      { hash := "empty", successful := true, fee_charged := 100,
        operations := [], memo := none } none).1.mpr rfl
  · exact (c1_empty_transaction
      { hash := "abc", successful := true, fee_charged := 100,
        operations := [Operation.Other { id := "1", operation_type := "create_account" }],
        memo := none } none).2.2 (by decide) (by decide)

/-! ## Claim C5: payment explanations and skipped-operation count -/

/-- Lemma: `payment_operations` lists exactly the `Payment`-variant operations, so
its length is `payment_count`. -/
theorem payment_operations_length (tx : Transaction) :
    tx.payment_operations.length = tx.payment_count := by
  unfold Transaction.payment_operations Transaction.payment_count
  induction tx.operations with
  | nil => rfl
  | cons op ops ih =>
    cases op <;> simpa [Operation.is_payment] using ih

/-- C5: whenever a `TransactionExplanation` is returned,
`skipped_operations = total − payment_count`, and `payment_explanations`
is exactly the payment explainer mapped over the `Payment`-variant
operations in transaction order (hence one entry per payment operation). -/
theorem c5_payment_explanations (tx : Transaction) (fee_stats : Option FeeStats)
    (e : TransactionExplanation)
    (h : explain_transaction tx fee_stats = some (Except.ok e)) :
    e.skipped_operations = tx.operations.length - tx.payment_count ∧
      e.payment_explanations = tx.payment_operations.map explain_payment ∧
      e.payment_explanations.length = tx.payment_count := by
  rw [explain_transaction] at h
  by_cases h0 : tx.operations.length = 0
  · rw [if_pos h0] at h
    simp at h
  · rw [if_neg h0] at h
    cases hm : transaction_memo_explanation tx with
    | none => rw [hm] at h; exact Option.noConfusion h
    | some mo =>
      rw [hm] at h
      simp only [Option.some.injEq, Except.ok.injEq] at h
      subst h
      refine ⟨rfl, rfl, ?_⟩
      rw [List.length_map]
      exact payment_operations_length tx

/-- Concrete transaction for the C5 witness: one payment, one other. -/
def txC5 : Transaction :=
  { hash := "abc123"
    successful := true
    fee_charged := 100
    operations :=
      [Operation.Payment
        { id := "1", source_account := none, destination := "GDEST",
          asset_type := "native", asset_code := none, asset_issuer := none,
          amount := "50" },
       Operation.Other { id := "2", operation_type := "set_options" }]
    memo := none }

/-- The explanation the orchestrator produces for `txC5`. -/
def expC5 : TransactionExplanation :=
  { transaction_hash := "abc123"
    successful := true
    summary := "This successful transaction contains 1 payment. 1 other operation was skipped."
    payment_explanations :=
      [{ summary := "Unknown sent 50 XLM (native) to GDEST", from_ := "Unknown",
         to_ := "GDEST", asset := "XLM (native)", amount := "50", fee_note := none }]
    skipped_operations := 1
    memo_explanation := none
    fee_explanation := "A fee of 0.0000100 XLM was charged." }

/-- C5 witness: the concrete one-payment-one-other transaction. -/
theorem c5_witness :
    explain_transaction txC5 none = some (Except.ok expC5) ∧
      expC5.skipped_operations = txC5.operations.length - txC5.payment_count ∧
      expC5.payment_explanations = txC5.payment_operations.map explain_payment ∧
      expC5.payment_explanations.length = txC5.payment_count := by
  have h : explain_transaction txC5 none = some (Except.ok expC5) := by decide
  have hc := c5_payment_explanations txC5 none expC5 h
  exact ⟨h, hc.1, hc.2.1, hc.2.2⟩

/-! ## Claim C10: the mapper's shared asset formatting
(`format_asset` in `models/operation.rs`) -/

/-- The fall-through arm of the mapper's `format_asset`: the match on the
`(asset_code, asset_issuer)` pair. -/
def format_credit_asset (asset_code asset_issuer : Option String) : String :=
  match asset_code, asset_issuer with
  | some code, some issuer => code ++ " (" ++ issuer ++ ")"
  | some code, none => code
  | _, _ => "Unknown"

/-- Embeds `format_asset` (`models/operation.rs`): shared asset formatting of the
upstream-to-domain mapper.  The Rust `match` arm `Some("native") | None`
is rendered as the `none` arm plus the `t = "native"` test. -/
def format_asset (asset_type asset_code asset_issuer : Option String) : String :=
  match asset_type with
  | none => "XLM (native)"
  | some t =>
    if t = "native" then
      "XLM (native)"
    else
      format_credit_asset asset_code asset_issuer

/-- The last character of `l ++ [x]` is `x`. -/
theorem getLast?_append_singleton_char (x : Char) :
    ∀ l : List Char, (l ++ [x]).getLast? = some x := by
  intro l
  induction l with
  | nil => rfl
  | cons a t ih =>
    cases t with
    | nil => rfl
    | cons b t2 => exact ih

/-- Embeds `String.data` distributes over append. -/
theorem str_data_append (a b : String) : (a ++ b).data = a.data ++ b.data := by
  obtain ⟨da⟩ := a
  obtain ⟨db⟩ := b
  rfl

/-- Lemma: `"CODE (ISSUER)"`-shaped strings end in `')'`, so they never collide
with `"Unknown"`. -/
theorem append_paren_ne_unknown (a b : String) :
    a ++ " (" ++ b ++ ")" ≠ "Unknown" := by
  intro hcontra
  have hd := congrArg String.data hcontra
  rw [str_data_append, str_data_append, str_data_append] at hd
  have hlast := congrArg List.getLast? hd
  rw [show (")" : String).data = [')'] from rfl, getLast?_append_singleton_char] at hlast
  have : (')' : Char) = 'n' := Option.some.inj (hlast.trans (by decide))
  exact absurd this (by decide)

/-- C10 counterexample: the output `"Unknown"` is *not* produced only when
the asset code is absent — a present bare code that is literally
`"Unknown"` (with no issuer) formats to the same string. -/
theorem c10_counterexample :
    format_asset (some "credit_alphanum4") (some "Unknown") none = "Unknown" ∧
      (some "Unknown" : Option String) ≠ none := by
  exact ⟨by decide, by decide⟩

/-- C10 (amended): an absent asset-type is treated exactly like
`"native"` and formats as `"XLM (native)"` (never falling through to
`"Unknown"`); the function is total by construction; and the output
`"Unknown"` occurs only for a present non-native type with either no asset
code, or a bare asset code that is itself the literal `"Unknown"` with no
issuer. -/
theorem c10_format_asset (t c i : Option String) :
    format_asset none c i = "XLM (native)" ∧
      format_asset (some "native") c i = "XLM (native)" ∧
      (format_asset t c i = "Unknown" →
        (∃ s, t = some s ∧ s ≠ "native") ∧
          (c = none ∨ (c = some "Unknown" ∧ i = none))) := by
  refine ⟨rfl, rfl, ?_⟩
  intro h
  cases t with
  | none =>
    have hx : ("XLM (native)" : String) = "Unknown" := h
    exact absurd hx (by decide)
  | some s =>
    by_cases hs : s = "native"
    · subst hs
      have hx : ("XLM (native)" : String) = "Unknown" := h
      exact absurd hx (by decide)
    · refine ⟨⟨s, rfl, hs⟩, ?_⟩
      have h2 : (if s = "native" then "XLM (native)"
          else format_credit_asset c i) = "Unknown" := h
      rw [if_neg hs] at h2
      cases c with
      | none => exact Or.inl rfl
      | some code =>
        cases i with
        | none =>
          have h3 : code = "Unknown" := h2
          exact Or.inr ⟨by rw [h3], rfl⟩
        | some issuer =>
          have h3 : code ++ " (" ++ issuer ++ ")" = "Unknown" := h2
          exact absurd h3 (append_paren_ne_unknown code issuer)

/-- C10 witness: the amended only-if direction at the concrete
counterexample input, and the native/absent-type agreement. -/
theorem c10_witness :
    format_asset none (some "USDC") (some "GISSUER") = "XLM (native)" ∧
      ((∃ s, (some "credit_alphanum4" : Option String) = some s ∧ s ≠ "native") ∧
        ((some "Unknown" : Option String) = none ∨
          ((some "Unknown" : Option String) = some "Unknown" ∧
            (none : Option String) = none))) := by
  exact ⟨(c10_format_asset (some "credit_alphanum4") (some "USDC") (some "GISSUER")).1,
    (c10_format_asset (some "credit_alphanum4") (some "Unknown") none).2.2 (by decide)⟩

/-! ## Claim C9: timestamp reformatting

Modelled from the spec: the ledger-time reformatter belongs to
`explain_transaction_with_ledger`, which `routes/tx.rs` calls but whose
definition is not present under `src/`.  Spec §4.4: input
`YYYY-MM-DDTHH:MM:SS[Z|±HH:MM]`; output `"YYYY-MM-DD at HH:MM UTC"`
(seconds dropped, timezone suffix stripped); any input without a `T`
separator, or otherwise malformed, is returned unchanged; ad hoc substring
splitting, never raises (totality holds by construction here). -/

/-- Modelled from the spec: split a character list at the first occurrence
of `sep`; `none` when `sep` does not occur. -/
def splitOnceAt (sep : Char) : List Char → Option (List Char × List Char)
  | [] => none
  | c :: cs =>
    if c = sep then some ([], cs)
    else (splitOnceAt sep cs).map fun p => (c :: p.1, p.2)

/-- Modelled from the spec: the best-effort ISO-8601 timestamp
reformatter.  Splits once on `'T'`, keeps the date part and the first five
characters (`HH:MM`) of the time part; inputs without `'T'` or with a
too-short time part are returned unchanged. -/
def format_ledger_time (s : String) : String :=
  match splitOnceAt 'T' s.data with
  | none => s
  | some (datePart, timePart) =>
    if 5 ≤ timePart.length then
      String.mk datePart ++ " at " ++ String.mk (timePart.take 5) ++ " UTC"
    else s

/-- A list free of `sep` never splits. -/
theorem splitOnceAt_eq_none (sep : Char) :
    ∀ l : List Char, (∀ c ∈ l, c ≠ sep) → splitOnceAt sep l = none := by
  intro l
  induction l with
  | nil => intro _; rfl
  | cons c cs ih =>
    intro h
    have hc : ¬ c = sep := h c (List.mem_cons_self c cs)
    simp only [splitOnceAt, if_neg hc,
      ih fun d hd => h d (List.mem_cons_of_mem c hd), Option.map_none']

/-- C9: the reformatter maps `"2024-01-15T14:32:00Z"` to
`"2024-01-15 at 14:32 UTC"` (seconds dropped, timezone stripped), returns
any input without a `'T'` separator byte-for-byte unchanged, and is total
(it never raises). -/
theorem c9_format_ledger_time :
    format_ledger_time "2024-01-15T14:32:00Z" = "2024-01-15 at 14:32 UTC" ∧
      format_ledger_time "2024-01-15" = "2024-01-15" ∧
      ∀ s : String, (∀ c ∈ s.data, c ≠ 'T') → format_ledger_time s = s := by
  refine ⟨by decide, by decide, ?_⟩
  intro s hs
  rw [format_ledger_time, splitOnceAt_eq_none 'T' s.data hs]

/-- C9 witness: the no-separator clause at a concrete input. -/
theorem c9_witness : format_ledger_time "14:32:00" = "14:32:00" :=
  c9_format_ledger_time.2.2 "14:32:00" (by decide)

end StellarExplain
